import Mathlib

/-!
Verification development for the controller registration layer of
django-ninja-extra (`ninja_extra/controllers/base.py`).

The definitions below are a shallow embedding of that module.  Pure helper
functions are translated to Lean functions; the mutable `APIController`
object is threaded as an explicit record; fallible code returns `Except`.
External collaborators (the django-ninja sentinel `NOT_SET`, the Python
runtime's MRO computation, `ninja.utils.normalize_path`) are modelled with
their documented behaviour, noted at each definition.  Parts of this
repository that are imported by `base.py` but whose source is not available
here (`ninja_extra.operation.PathView`, `ninja_extra.shortcuts`,
`ninja_extra.permissions.AllowAny`, the controller registry) are modelled
from the specification and marked as such.
-/

namespace NinjaExtra

/--
Model of the Python values that can flow through the `auth` parameters of
`base.py`.  `notSet` is `ninja.constants.NOT_SET`, a plain instance of
`NOT_SET_TYPE` (which defines neither `__bool__` nor `__len__`, hence the
instance is truthy).  `pynone` is Python `None`; `emptyList` is `[]`
(both falsy); `authVal s` stands for an arbitrary truthy authenticator
object.
-/
inductive PyVal
  | notSet
  | pynone
  | emptyList
  | authVal (s : String)
deriving DecidableEq, Repr

/-- Python truthiness of the modelled values: `None` and `[]` are falsy,
`NOT_SET` and authenticator objects are truthy. -/
def PyVal.truthy : PyVal → Bool
  | PyVal.pynone => false
  | PyVal.emptyList => false
  | _ => true

/-- Python `a or b`: returns `a` when `a` is truthy, else `b`. -/
def pyOr (a b : PyVal) : PyVal :=
  if a.truthy then a else b

/--
Model of the value stored in `APIController._tags`
(`Union[str, List[str], None]`): Python `None`, a single string, or a list
of strings.
-/
inductive TagsValue
  | vNone
  | vStr (s : String)
  | vList (l : List String)
deriving DecidableEq, Repr

/-- Python truthiness of a tags value: `None`, `""` and `[]` are falsy. -/
def TagsValue.truthy : TagsValue → Bool
  | TagsValue.vNone => false
  | TagsValue.vStr s => !(s == "")
  | TagsValue.vList l => !l.isEmpty

/--
The `tags` property setter (`base.py` lines 140-145):
`tag = value; if tag and isinstance(value, str): tag = [value]`.
A truthy string is wrapped into a one-element list, everything else is
stored unchanged.
-/
def set_tags : TagsValue → TagsValue
  | TagsValue.vStr s => if !(s == "") then TagsValue.vList [s] else TagsValue.vStr s
  | v => v

/-- Whether `pat` is an initial segment of `l` (character-level helper for
the Python `str.replace` model). -/
def startsWithChars : List Char → List Char → Bool
  | [], _ => true
  | _ :: _, [] => false
  | p :: ps, c :: cs => p == c && startsWithChars ps cs

/--
Fuel-driven worker for Python `str.replace`: scans left to right and
replaces each non-overlapping occurrence of `pat` by `rep`.  One character
of input is consumed per step, so fuel equal to the input length is
sufficient; the fuel only makes the structural recursion explicit.
-/
def pyReplaceGo (pat rep : List Char) : Nat → List Char → List Char
  | _, [] => []
  | 0, s => s
  | fuel + 1, c :: rest =>
    if !pat.isEmpty && startsWithChars pat (c :: rest) then
      rep ++ pyReplaceGo pat rep fuel (List.drop (pat.length - 1) rest)
    else
      c :: pyReplaceGo pat rep fuel rest

/-- Python `s.replace(pat, rep)`: every non-overlapping occurrence of `pat`
in `s` is replaced by `rep`, scanning left to right. -/
def pyReplace (s pat rep : String) : String :=
  String.mk (pyReplaceGo pat.data rep.data s.data.length s.data)

/-- ASCII lower-casing of one character (Python `str.lower` restricted to
the ASCII class names that occur here). -/
def lowerChar (c : Char) : Char :=
  if 'A' ≤ c ∧ c ≤ 'Z' then Char.ofNat (c.toNat + 32) else c

/-- Python `s.lower()` for ASCII strings. -/
def strToLower (s : String) : String :=
  String.mk (s.data.map lowerChar)

/--
Model of `ninja.utils.normalize_path` (external django-ninja helper used at
`base.py` line 187): `while "//" in path: path = path.replace("//", "/")`.
Its fixpoint collapses every run of consecutive slashes to a single slash,
which is what this recursion computes directly.
-/
def collapseSlashes : List Char → List Char
  | [] => []
  | [c] => [c]
  | a :: b :: rest =>
    if a == '/' && b == '/' then collapseSlashes (b :: rest)
    else a :: collapseSlashes (b :: rest)

/-- String-level wrapper for the `normalize_path` model. -/
def normalizePath (s : String) : String :=
  String.mk (collapseSlashes s.data)

/-- Python `s.lstrip("/")` on the character list: drop every leading slash. -/
def lstripSlash : List Char → List Char
  | [] => []
  | c :: rest => if c == '/' then lstripSlash rest else c :: rest

/-- String-level wrapper for `lstrip("/")`. -/
def lstripSlashStr (s : String) : String :=
  String.mk (lstripSlash s.data)

/-- Whether the character list contains two consecutive slashes (a doubled
path separator). -/
def hasDoubleSlash : List Char → Bool
  | a :: b :: rest => (a == '/' && b == '/') || hasDoubleSlash (b :: rest)
  | _ => false

/-- Python `sep.join(parts)`. -/
def strJoin (sep : String) : List String → String
  | [] => ""
  | [x] => x
  | x :: y :: rest => x ++ sep ++ strJoin sep (y :: rest)

/-- Concatenation of a list of lists (used to model generator flattening). -/
def flattenL {α : Type} : List (List α) → List α
  | [] => []
  | x :: xs => x ++ flattenL xs

/-- Sum of a list of naturals. -/
def sumL : List Nat → Nat
  | [] => 0
  | x :: xs => x + sumL xs

/--
A permission class together with the behaviour of the instance obtained by
calling it (`permission_class()` in `_get_permissions`, `base.py` line 314;
instances are stateless, so the class record doubles as the fresh
instance).  `has_permission` is the value returned by
`has_permission(request, controller)` for the request under consideration;
`has_object_permission obj` is the value returned by
`has_object_permission(request, controller, obj)`.  `message` is the
optional `message` attribute read by `permission_denied` via `getattr`
(`none` when the attribute is absent).
-/
structure PermissionClass where
  name : String
  has_permission : Bool
  has_object_permission : Nat → Bool
  message : Option String

/--
Modelled from the spec: `ninja_extra.permissions.AllowAny` (its source file
is not under src/) is the "always allow" policy used as the default
permission list by the `APIController` constructor.
-/
def AllowAny : PermissionClass :=
  { name := "AllowAny", has_permission := true,
    has_object_permission := fun _ => true, message := none }

/--
Modelled from the spec: `RouteContext` (`ninja_extra/controllers/route/context.py`,
not under src/) is the per-request state consulted by the permission
checks; per spec §3 it holds the request object and the effective
permission classes.  `request = none` models a context whose `request`
attribute is `None`; a present request object is truthy.
-/
structure RouteContext where
  request : Option Nat
  permission_classes : List PermissionClass

/--
A `RouteFunction` as far as registration is concerned: the declaring
method's `__name__` and the route parameters that
`route_function.route.route_params.dict()` forwards to
`add_api_operation` (fields not consulted by any claim - response schema,
documentation and serialization flags - are elided).
-/
structure RouteFunction where
  name : String
  path : String
  methods : List String
  auth : PyVal
  url_name : Option String
deriving DecidableEq, Repr

/-- The registered operation record produced by a `PathView` registration
(fields not consulted by any claim are elided). -/
structure Operation where
  path : String
  methods : List String
  auth : PyVal
  operation_id : Option String
  url_name : Option String
deriving DecidableEq, Repr

/--
Modelled from the spec: `ninja_extra.operation.PathView` is not under
src/.  Per spec §2/§3 it is the per-URL-path container that accumulates the
operations registered at that path, and per §4.2 `set_api_instance`
rebinds it to the owning application instance.  `boundApi` records the
application instance it was last bound to.
-/
structure PathView where
  operations : List Operation
  boundApi : Option Nat
deriving DecidableEq, Repr

/--
Modelled from the spec: `PathView.add_operation` (spec §4.2: the PathView
is asked "to register a new operation for the given HTTP methods").  It
creates one operation record from the arguments, appends it, and returns
it.
-/
def PathView.add_operation (pv : PathView) (path : String) (methods : List String)
    (auth : PyVal) (operation_id : Option String) (url_name : Option String) :
    PathView × Operation :=
  let op : Operation :=
    { path := path, methods := methods, auth := auth,
      operation_id := operation_id, url_name := url_name }
  ({ pv with operations := pv.operations ++ [op] }, op)

/--
Modelled from the spec: `PathView.set_api_instance` (spec §4.2: each
PathView "must rebind every operation it holds" to the final application
instance).  Application instances are identified by `Nat`.
-/
def PathView.set_api_instance (pv : PathView) (api : Nat) : PathView :=
  { pv with boundApi := some api }

/--
The `APIController` descriptor (`base.py` lines 101-252) with the state
written by its constructor, plus the attributes of collaborating objects
that its methods mutate:

* `controllerClassApi` models the `api` attribute `set_api_instance`
  writes on the bound controller class;
* `conversionLog` instruments `compute_api_route_function`: one entry
  `(declaring class id, route function name)` per conversion of a route
  function into an operation (it also stands in for the
  `cls_route_function.api_controller = self` back-reference written
  there);
* `registryAdds` instruments `ControllerRegistry().add_controller(cls)`
  (the registry source is not under src/; spec §3 only requires the
  recording of the class);
* `uuidSeed` models the `uuid.uuid4()` draw of
  `add_operation_from_route_function`: each draw yields a fresh token.

Classes and application instances are identified by `Nat`.  The source
attribute `prefix` is a Lean keyword and is embedded as `urlPrefix`.
-/
structure APIController where
  selfId : Nat
  urlPrefix : String
  auth : PyVal
  tags : TagsValue
  auto_import : Bool
  permission_classes : List PermissionClass
  controller_class : Option Nat
  controllerClassApi : Option Nat
  path_operations : List (String × PathView)
  registered : Bool
  conversionLog : List (Nat × String)
  registryAdds : List Nat
  uuidSeed : Nat

/--
The `APIController` constructor (`base.py` lines 106-133): stores the
prefix, auth and auto-import flag, routes `tags` through the property
setter, defaults `permissions or [AllowAny]` (an explicitly empty
permission list is falsy and also falls back to `[AllowAny]`), starts with
an empty `_path_operations` dict and `registered = False`.
-/
def APIController.init (selfId : Nat) (urlPrefix : String) (auth : PyVal)
    (tags : TagsValue) (permissions : Option (List PermissionClass))
    (auto_import : Bool) : APIController :=
  { selfId := selfId
    urlPrefix := urlPrefix
    auth := auth
    tags := set_tags tags
    auto_import := auto_import
    permission_classes :=
      match permissions with
      | none => [AllowAny]
      | some [] => [AllowAny]
      | some ps => ps
    controller_class := none
    controllerClassApi := none
    path_operations := []
    registered := false
    conversionLog := []
    registryAdds := []
    uuidSeed := 0 }

/-- Python `dict` lookup on the insertion-ordered `_path_operations` map. -/
def lookupPath : List (String × PathView) → String → Option PathView
  | [], _ => none
  | (k, v) :: rest, p => if k == p then some v else lookupPath rest p

/-- Python `dict` assignment to an existing key: the value is replaced in
place, insertion order is preserved. -/
def updatePath : List (String × PathView) → String → PathView → List (String × PathView)
  | [], _, _ => []
  | (k, v) :: rest, p, pv => if k == p then (k, pv) :: rest else (k, v) :: updatePath rest p pv

/--
`APIController.add_api_operation` (`base.py` lines 209-252): looks up or
creates the `PathView` for `path` (a new key is appended to the dict), and
registers one operation on it, passing `auth or self.auth` as the auth.
Returns the updated controller and the created operation.
-/
def add_api_operation (a : APIController) (path : String) (methods : List String)
    (auth : PyVal) (operation_id : Option String) (url_name : Option String) :
    APIController × Operation :=
  match lookupPath a.path_operations path with
  | none =>
    let path_view : PathView := { operations := [], boundApi := none }
    let res := PathView.add_operation path_view path methods (pyOr auth a.auth) operation_id url_name
    ({ a with path_operations := a.path_operations ++ [(path, res.1)] }, res.2)
  | some path_view =>
    let res := PathView.add_operation path_view path methods (pyOr auth a.auth) operation_id url_name
    ({ a with path_operations := updatePath a.path_operations path res.1 }, res.2)

/--
`APIController.add_operation_from_route_function` (`base.py` lines
200-207): stamps a fresh operation id
`f"\x7bstr(uuid.uuid4())[:8]\x7d_controller_\x7bname\x7d"` onto the route
parameters and delegates to `add_api_operation`.  The random uuid token is
modelled as a per-draw fresh string derived from `uuidSeed`.
-/
def add_operation_from_route_function (a : APIController) (rf : RouteFunction) :
    APIController :=
  let token := String.mk (List.replicate a.uuidSeed 'u')
  let a' := { a with uuidSeed := a.uuidSeed + 1 }
  (add_api_operation a' rf.path rf.methods rf.auth
    (some (token ++ "_controller_" ++ rf.name)) rf.url_name).1

/--
One entry of `inspect.getmro(cls)` as consumed by the decorator: the
class's identity and the `RouteFunction` values of its own `__dict__`
(`get_route_functions`, `base.py` lines 52-55, yields exactly the route
functions declared directly on that class).
-/
structure PyClassInfo where
  id : Nat
  name : String
  ownRouteFns : List RouteFunction
deriving DecidableEq, Repr

/-- Identity of the `ControllerBase` class in the embedding. -/
def controllerBaseId : Nat := 0

/-- Identity of `abc.ABC` in the embedding. -/
def abcId : Nat := 1

/-- Identity of `object` in the embedding. -/
def objectId : Nat := 2

/-- The membership test `base_cls not in [ControllerBase, ABC, object]` of
the decorator loop (`base.py` line 160); Python `in` on classes compares
identities. -/
def includedInLoop (b : PyClassInfo) : Bool :=
  b.id != controllerBaseId && b.id != abcId && b.id != objectId

/--
`compute_api_route_function` (`base.py` lines 58-63): for every route
function declared directly on `base`, set its back-reference to this
controller and convert it into one operation via
`add_operation_from_route_function`.  Each conversion is recorded in the
instrumentation log.
-/
def compute_api_route_function (base : PyClassInfo) (a : APIController) : APIController :=
  base.ownRouteFns.foldl
    (fun s rf =>
      let s' := add_operation_from_route_function s rf
      { s' with conversionLog := s'.conversionLog ++ [(base.id, rf.name)] })
    a

/-- The `for base_cls in inspect.getmro(cls)` loop of the decorator
(`base.py` lines 158-161). -/
def mro_convert_loop (mroInfo : List PyClassInfo) (a : APIController) : APIController :=
  mroInfo.foldl
    (fun s base => if includedInLoop base then compute_api_route_function base s else s)
    a

/--
A Python class object as consumed and produced by the decorator:
`mroIds` is the identity list of `cls.__mro__` as maintained by the Python
runtime (`issubclass` is membership in it, each class lists itself);
`apiCtrl` is the `_api_controller` attribute (the id of the owning
`APIController`, or absent); `autoImportAttr` is the optional
`auto_import` attribute read by `getattr` at `base.py` line 148.
-/
structure PyClassObj where
  id : Nat
  name : String
  mroIds : List Nat
  apiCtrl : Option Nat
  autoImportAttr : Option Bool
deriving DecidableEq, Repr

/--
`APIController.__call__` (`base.py` lines 147-168), the decorator body:

1. `self.auto_import = getattr(cls, 'auto_import', self.auto_import)`;
2. if `cls` is not a `ControllerBase` subclass, recombine it as
   `type(cls.__name__, (ControllerBase, cls), dict(_api_controller=self))`
   - the Python runtime computes the new class's MRO by C3 linearization;
   only membership matters for `issubclass`, so the embedding records the
   new class followed by the deduplicated ids of `ControllerBase`'s MRO
   and of `cls`'s MRO - else set `cls._api_controller = self`;
3. if `self.tags` is falsy, default it to
   `[str(cls.__name__).lower().replace("controller", "")]`;
4. run `compute_api_route_function` over every entry of
   `inspect.getmro(cls)` other than `ControllerBase`, `ABC` and `object`
   (`mroInfo` is the runtime-supplied `getmro` view of the finalized
   class, carrying each entry's directly declared route functions);
5. the dependency-injection wiring (`is_decorated_with_inject` /
   `fail_silently(inject, ...)`) touches no state modelled here and is
   elided;
6. record the finalized class in `controller_class` and in the registry.

`freshId` is the runtime-supplied identity of the recombined class when
recombination happens.  Returns the updated controller and the finalized
class.
-/
def APIController.call (a : APIController) (cls : PyClassObj) (freshId : Nat)
    (mroInfo : List PyClassInfo) : APIController × PyClassObj :=
  let a1 := { a with auto_import :=
    match cls.autoImportAttr with
    | some b => b
    | none => a.auto_import }
  let cls' :=
    if controllerBaseId ∈ cls.mroIds then
      { cls with apiCtrl := some a1.selfId }
    else
      { id := freshId, name := cls.name,
        mroIds := freshId :: ((controllerBaseId :: abcId :: objectId :: cls.mroIds).dedup),
        apiCtrl := some a1.selfId, autoImportAttr := cls.autoImportAttr }
  let a2 :=
    if a1.tags.truthy then a1
    else { a1 with tags := TagsValue.vList [pyReplace (strToLower cls'.name) "controller" ""] }
  let a3 := mro_convert_loop mroInfo a2
  ({ a3 with controller_class := some cls'.id,
             registryAdds := a3.registryAdds ++ [cls'.id] }, cls')

/--
`APIController.set_api_instance` (`base.py` lines 174-177): writes
`controller_class.api = api` and calls `set_api_instance` on every stored
`PathView`.  Note the method itself consults neither the `registered` flag
nor the previous binding.
-/
def set_api_instance (a : APIController) (api : Nat) : APIController :=
  { a with controllerClassApi := some api,
           path_operations :=
             a.path_operations.map (fun e => (e.1, PathView.set_api_instance e.2 api)) }

/--
The per-path route computation of `APIController.urls_paths` (`base.py`
lines 182-192): translate the curly-brace parameters to angle brackets,
join the non-empty components of `(prefix, path)` with `"/"`, normalize
double slashes away, and strip leading slashes.
-/
def routePath (pfx declaredPath : String) : String :=
  let p := pyReplace (pyReplace declaredPath "\x7b" "<") "\x7d" ">"
  let route := strJoin "/" (List.filter (fun i => !(i == "")) [pfx, p])
  lstripSlashStr (normalizePath route)

/--
`APIController.urls_paths` (`base.py` lines 182-192): for every stored
path, yields one `(routable path, url name)` entry per operation held by
that path's `PathView`.
-/
def urls_paths (a : APIController) (pfx : String) : List (String × Option String) :=
  flattenL (a.path_operations.map (fun e =>
    e.2.operations.map (fun op => (routePath pfx e.1, op.url_name))))

/--
`ControllerBase.get_api_controller` (`base.py` lines 271-278): raises
`MissingAPIControllerDecoratorException` when the `_api_controller`
attribute is absent or `None` (falsy), else returns it.
-/
def get_api_controller (cls : PyClassObj) : Except String Nat :=
  match cls.apiCtrl with
  | none => Except.error "MissingAPIControllerDecoratorException"
  | some i => Except.ok i

/-- One recorded invocation of a permission instance's method:
`reqCheck` for `has_permission`, `objCheck` for `has_object_permission`
on a given object. -/
inductive CheckEvent
  | reqCheck (permName : String)
  | objCheck (permName : String) (obj : Nat)
deriving DecidableEq, Repr

/--
`ControllerBase._get_permissions` (`base.py` lines 306-315): with no (or a
falsy) context it yields nothing; otherwise it instantiates each class of
`context.permission_classes` in order (instances are stateless, so the
class records stand for the fresh instances).
-/
def get_permissions (context : Option RouteContext) : List PermissionClass :=
  match context with
  | none => []
  | some c => c.permission_classes

/--
The loop body of `ControllerBase.check_permissions` (`base.py` lines
317-330) over the instantiated permissions.  The guard
`self.context and self.context.request and not permission.has_permission(...)`
short-circuits: `has_permission` is invoked (recorded as a `reqCheck`
event) only when context and request are present.  A failing check raises
`PermissionDenied(getattr(permission, "message", None))`
(`permission_denied`, `base.py` lines 280-283), modelled as
`some permission.message` in the second component.
-/
def check_permissions_go (context : Option RouteContext) :
    List PermissionClass → List CheckEvent × Option (Option String)
  | [] => ([], none)
  | p :: rest =>
    match context with
    | some c =>
      match c.request with
      | some _ =>
        if p.has_permission = false then
          ([CheckEvent.reqCheck p.name], some p.message)
        else
          let r := check_permissions_go context rest
          (CheckEvent.reqCheck p.name :: r.1, r.2)
      | none => check_permissions_go context rest
    | none => check_permissions_go context rest

/-- `ControllerBase.check_permissions`: returns the `has_permission`
invocation trace and `some message` when `PermissionDenied(message)` was
raised. -/
def check_permissions (context : Option RouteContext) :
    List CheckEvent × Option (Option String) :=
  check_permissions_go context (get_permissions context)

/-- The loop body of `ControllerBase.check_object_permissions` (`base.py`
lines 332-345), mirroring `check_permissions_go` with
`has_object_permission(request, controller, obj)`. -/
def check_object_permissions_go (context : Option RouteContext) (obj : Nat) :
    List PermissionClass → List CheckEvent × Option (Option String)
  | [] => ([], none)
  | p :: rest =>
    match context with
    | some c =>
      match c.request with
      | some _ =>
        if p.has_object_permission obj = false then
          ([CheckEvent.objCheck p.name obj], some p.message)
        else
          let r := check_object_permissions_go context obj rest
          (CheckEvent.objCheck p.name obj :: r.1, r.2)
      | none => check_object_permissions_go context obj rest
    | none => check_object_permissions_go context obj rest

/-- `ControllerBase.check_object_permissions`. -/
def check_object_permissions (context : Option RouteContext) (obj : Nat) :
    List CheckEvent × Option (Option String) :=
  check_object_permissions_go context obj (get_permissions context)

/--
`ControllerBase.get_object_or_none` (`base.py` lines 298-304).  The
underlying lookup `ninja_extra.shortcuts.get_object_or_none` is not under
src/; modelled from the spec (§6 `fetch_or_none`) as an already-computed
`Option` result, passed in as `lookupResult` (Django model instances are
truthy, so `if obj:` is `Option.isSome`).  When an object was found, the
object-level permission chain runs on it before the object is returned; a
raised `PermissionDenied` propagates.
-/
def get_object_or_none (lookupResult : Option Nat) (context : Option RouteContext) :
    List CheckEvent × Except (Option String) (Option Nat) :=
  match lookupResult with
  | none => ([], Except.ok none)
  | some o =>
    let checked := check_object_permissions context o
    match checked.2 with
    | some m => (checked.1, Except.error m)
    | none => (checked.1, Except.ok (some o))

/-! Derived counting functions used to state the registration claims. -/

/-- Total number of operations registered across all `PathView`s of the
controller's `_path_operations` map. -/
def totalOpsList (l : List (String × PathView)) : Nat :=
  sumL (l.map (fun e => e.2.operations.length))

/-- Total number of operations held by a controller. -/
def totalOps (a : APIController) : Nat :=
  totalOpsList a.path_operations

/-- Number of recorded conversions whose declaring class has identity `i`. -/
def countConvFor (i : Nat) : List (Nat × String) → Nat
  | [] => 0
  | e :: rest => (if e.1 = i then 1 else 0) + countConvFor i rest

/-- The conversion-log entries contributed by one MRO entry. -/
def convEntries (b : PyClassInfo) : List (Nat × String) :=
  b.ownRouteFns.map (fun rf => (b.id, rf.name))

/-- The conversion-log entries contributed by the whole decorator loop. -/
def loopLogOf (l : List PyClassInfo) : List (Nat × String) :=
  flattenL (l.map (fun b => if includedInLoop b then convEntries b else []))

/-!
Spec-side comparison definitions.  These two definitions follow the
wording of the specification (not the source) and exist only to be
compared with the behaviour of the embedded code.
-/

/-- Whether `suf` is a final segment of `l`. -/
def endsWithChars (suf l : List Char) : Bool :=
  startsWithChars suf.reverse l.reverse

/--
The default tag as the claim words it: the class name lowercased with the
literal suffix "controller" stripped (and only a suffix occurrence
removed).  Spec-side definition for comparison with the code's
`replace`-based behaviour.
-/
def specDefaultTag (clsName : String) : String :=
  let low := strToLower clsName
  if endsWithChars "controller".data low.data then
    String.mk (low.data.take (low.data.length - "controller".data.length))
  else low

/--
The auth choice as the claim words it: the route-level value whenever the
caller provided one (i.e. whenever it is not the `NOT_SET` sentinel), and
the controller's own default exactly when the route-level value was
omitted.  Spec-side definition for comparison with the code's
`auth or self.auth`.
-/
def specAuthChoice (routeAuth ctrlAuth : PyVal) : PyVal :=
  if routeAuth = PyVal.notSet then ctrlAuth else routeAuth

/-! Concrete instances used by the witnesses and counterexamples. -/

/-- A route function declared on the diamond ancestor `A`. -/
def rfListItems : RouteFunction :=
  { name := "list_items", path := "/items", methods := ["GET"],
    auth := PyVal.notSet, url_name := none }

/-- Diamond ancestor `A`, declaring one route. -/
def clsInfoA : PyClassInfo := { id := 10, name := "A", ownRouteFns := [rfListItems] }

/-- Diamond branch `B1` deriving from `A`. -/
def clsInfoB1 : PyClassInfo := { id := 11, name := "B1", ownRouteFns := [] }

/-- Diamond branch `B2` deriving from `A`. -/
def clsInfoB2 : PyClassInfo := { id := 12, name := "B2", ownRouteFns := [] }

/-- Diamond tip `S(B1, B2)`. -/
def clsInfoS : PyClassInfo := { id := 13, name := "S", ownRouteFns := [] }

/-- `ControllerBase` as an MRO entry (declares no route functions). -/
def clsInfoCB : PyClassInfo := { id := controllerBaseId, name := "ControllerBase", ownRouteFns := [] }

/-- `abc.ABC` as an MRO entry. -/
def clsInfoABC : PyClassInfo := { id := abcId, name := "ABC", ownRouteFns := [] }

/-- `object` as an MRO entry. -/
def clsInfoObj : PyClassInfo := { id := objectId, name := "object", ownRouteFns := [] }

/-- The C3-linearized MRO of the diamond `S(B1, B2)`, `B1(A)`, `B2(A)`,
`A(ControllerBase)`: the common ancestor `A` appears exactly once although
it is reachable through both `B1` and `B2`. -/
def diamondMro : List PyClassInfo :=
  [clsInfoS, clsInfoB1, clsInfoB2, clsInfoA, clsInfoCB, clsInfoABC, clsInfoObj]

/-- The class object for the diamond tip (already a `ControllerBase`
subclass through `A`). -/
def diamondClsObj : PyClassObj :=
  { id := 13, name := "S", mroIds := [13, 11, 12, 10, controllerBaseId, abcId, objectId],
    apiCtrl := none, autoImportAttr := none }

/-- A freshly constructed controller descriptor used by the registration
witnesses. -/
def ctrlItems : APIController :=
  APIController.init 1 "items" PyVal.notSet TagsValue.vNone none true

/-- A controller with one registered path and a bound class, used by the
re-binding counterexample. -/
def ctrlBound : APIController :=
  { (add_api_operation (APIController.init 2 "" PyVal.notSet TagsValue.vNone none true)
      "/items" ["GET"] PyVal.notSet none none).1 with controller_class := some 40 }

/-- A permission that denies request-level access with a message. -/
def permDeny : PermissionClass :=
  { name := "P1", has_permission := false,
    has_object_permission := fun _ => false, message := some "p1 denied" }

/-- A permission that grants request-level access. -/
def permAllow : PermissionClass :=
  { name := "P2", has_permission := true,
    has_object_permission := fun _ => true, message := some "p2 denied" }

/-- A controller whose default auth is a concrete authenticator, used by
the auth-defaulting counterexample. -/
def ctrlWithAuth : APIController :=
  APIController.init 3 "" (PyVal.authVal "ctrlAuth") TagsValue.vNone none true

/-- A controller holding the single declared path of the path-translation
example. -/
def ctrlShopExample : APIController :=
  (add_api_operation (APIController.init 4 "" PyVal.notSet TagsValue.vNone none true)
    "/items/\x7bitem_id\x7d" ["GET"] PyVal.notSet none (some "item_op")).1

/-- A plain user class (not a `ControllerBase` subclass) for the decorator
round-trip witness. -/
def plainUserCls : PyClassObj :=
  { id := 20, name := "EventController", mroIds := [20, objectId],
    apiCtrl := none, autoImportAttr := none }

/-- A controller with one existing path `"/other"`, used by the frame
witness of `add_api_operation`. -/
def ctrlFrameExample : APIController :=
  (add_api_operation (APIController.init 5 "" PyVal.notSet TagsValue.vNone none true)
    "/other" ["GET"] PyVal.notSet none none).1

/-- A plain class whose name contains "controller" in the middle, showing
that the tag default removes the substring everywhere, not only as a
suffix. -/
def midNameClsObj : PyClassObj :=
  { id := 22, name := "MyControllerApi", mroIds := [22, objectId],
    apiCtrl := none, autoImportAttr := none }

/-- A plain class named `WidgetController`, the tag-default example of the
spec. -/
def widgetClsObj : PyClassObj :=
  { id := 24, name := "WidgetController", mroIds := [24, objectId],
    apiCtrl := none, autoImportAttr := none }

/-- A route context whose `request` attribute is `None` (check invoked
outside a request lifecycle). -/
def noReqCtx : RouteContext :=
  { request := none, permission_classes := [permDeny, permAllow] }

/-! Helper lemmas shared by the claim theorems. -/

theorem sumL_append (a b : List Nat) : sumL (a ++ b) = sumL a + sumL b := by
  induction a with
  | nil => simp [sumL]
  | cons x xs ih => simp [sumL, ih, Nat.add_assoc]

theorem totalOpsList_append (l1 l2 : List (String × PathView)) :
    totalOpsList (l1 ++ l2) = totalOpsList l1 + totalOpsList l2 := by
  simp [totalOpsList, sumL_append]

theorem totalOpsList_update (l : List (String × PathView)) (p : String) (pv pv' : PathView)
    (h : lookupPath l p = some pv) :
    totalOpsList (updatePath l p pv') + pv.operations.length
      = totalOpsList l + pv'.operations.length := by
  induction l with
  | nil => simp [lookupPath] at h
  | cons e rest ih =>
    obtain ⟨k, v⟩ := e
    by_cases hk : k = p
    · simp [lookupPath, beq_iff_eq, hk] at h
      subst h
      simp [updatePath, beq_iff_eq, hk, totalOpsList, sumL]
      omega
    · simp [lookupPath, beq_iff_eq, hk] at h
      have := ih h
      simp [updatePath, beq_iff_eq, hk, totalOpsList, sumL] at this ⊢
      omega

theorem totalOpsList_update_succ (l : List (String × PathView)) (p : String) (pv pv' : PathView)
    (h : lookupPath l p = some pv)
    (hlen : pv'.operations.length = pv.operations.length + 1) :
    totalOpsList (updatePath l p pv') = totalOpsList l + 1 := by
  have := totalOpsList_update l p pv pv' h
  omega

theorem add_api_operation_unchanged (a : APIController) (p : String) (m : List String)
    (au : PyVal) (oid un : Option String) :
    ((add_api_operation a p m au oid un).1).conversionLog = a.conversionLog
  ∧ ((add_api_operation a p m au oid un).1).tags = a.tags
  ∧ ((add_api_operation a p m au oid un).1).uuidSeed = a.uuidSeed := by
  unfold add_api_operation
  rcases h : lookupPath a.path_operations p with _ | pv <;> simp [h]

theorem add_api_operation_totalOps (a : APIController) (p : String) (m : List String)
    (au : PyVal) (oid un : Option String) :
    totalOps ((add_api_operation a p m au oid un).1) = totalOps a + 1 := by
  unfold add_api_operation
  rcases h : lookupPath a.path_operations p with _ | pv
  · simp only [h]
    show totalOpsList (a.path_operations ++ _) = totalOpsList a.path_operations + 1
    rw [totalOpsList_append]
    rfl
  · simp only [h]
    exact totalOpsList_update_succ a.path_operations p pv _ h (by simp [PathView.add_operation])

theorem add_op_from_rf_conversionLog (a : APIController) (rf : RouteFunction) :
    (add_operation_from_route_function a rf).conversionLog = a.conversionLog := by
  unfold add_operation_from_route_function
  exact (add_api_operation_unchanged _ _ _ _ _ _).1

theorem add_op_from_rf_tags (a : APIController) (rf : RouteFunction) :
    (add_operation_from_route_function a rf).tags = a.tags := by
  unfold add_operation_from_route_function
  exact (add_api_operation_unchanged _ _ _ _ _ _).2.1

theorem add_op_from_rf_totalOps (a : APIController) (rf : RouteFunction) :
    totalOps (add_operation_from_route_function a rf) = totalOps a + 1 := by
  unfold add_operation_from_route_function
  exact add_api_operation_totalOps _ _ _ _ _ _

theorem compute_fold_log (b : PyClassInfo) (l : List RouteFunction) : ∀ a : APIController,
    (l.foldl (fun s rf =>
        let s' := add_operation_from_route_function s rf
        { s' with conversionLog := s'.conversionLog ++ [(b.id, rf.name)] }) a).conversionLog
      = a.conversionLog ++ l.map (fun rf => (b.id, rf.name)) := by
  induction l with
  | nil => intro a; simp
  | cons rf rest ih =>
    intro a
    rw [List.foldl_cons, ih]
    simp [add_op_from_rf_conversionLog]

theorem compute_fold_totalOps (b : PyClassInfo) (l : List RouteFunction) : ∀ a : APIController,
    totalOps (l.foldl (fun s rf =>
        let s' := add_operation_from_route_function s rf
        { s' with conversionLog := s'.conversionLog ++ [(b.id, rf.name)] }) a)
      = totalOps a + l.length := by
  induction l with
  | nil => intro a; simp
  | cons rf rest ih =>
    intro a
    rw [List.foldl_cons, ih]
    have h1 : totalOps
        (let s' := add_operation_from_route_function a rf
         { s' with conversionLog := s'.conversionLog ++ [(b.id, rf.name)] })
        = totalOps a + 1 := by
      show totalOps { add_operation_from_route_function a rf with
        conversionLog := (add_operation_from_route_function a rf).conversionLog ++ [(b.id, rf.name)] }
        = totalOps a + 1
      have h2 : totalOps { add_operation_from_route_function a rf with
          conversionLog := (add_operation_from_route_function a rf).conversionLog ++ [(b.id, rf.name)] }
          = totalOps (add_operation_from_route_function a rf) := rfl
      rw [h2, add_op_from_rf_totalOps]
    rw [h1]
    simp [List.length_cons]
    omega

theorem compute_fold_tags (b : PyClassInfo) (l : List RouteFunction) : ∀ a : APIController,
    (l.foldl (fun s rf =>
        let s' := add_operation_from_route_function s rf
        { s' with conversionLog := s'.conversionLog ++ [(b.id, rf.name)] }) a).tags
      = a.tags := by
  induction l with
  | nil => intro a; simp
  | cons rf rest ih =>
    intro a
    rw [List.foldl_cons, ih]
    simp [add_op_from_rf_tags]

theorem compute_log (b : PyClassInfo) (a : APIController) :
    (compute_api_route_function b a).conversionLog = a.conversionLog ++ convEntries b :=
  compute_fold_log b b.ownRouteFns a

theorem compute_totalOps (b : PyClassInfo) (a : APIController) :
    totalOps (compute_api_route_function b a) = totalOps a + b.ownRouteFns.length :=
  compute_fold_totalOps b b.ownRouteFns a

theorem compute_tags (b : PyClassInfo) (a : APIController) :
    (compute_api_route_function b a).tags = a.tags :=
  compute_fold_tags b b.ownRouteFns a

theorem loopLogOf_cons (b : PyClassInfo) (rest : List PyClassInfo) :
    loopLogOf (b :: rest) = (if includedInLoop b then convEntries b else []) ++ loopLogOf rest := rfl

theorem loop_log (l : List PyClassInfo) : ∀ a : APIController,
    (mro_convert_loop l a).conversionLog = a.conversionLog ++ loopLogOf l := by
  induction l with
  | nil => intro a; simp [mro_convert_loop, loopLogOf, flattenL]
  | cons b rest ih =>
    intro a
    have hstep : mro_convert_loop (b :: rest) a
        = mro_convert_loop rest (if includedInLoop b then compute_api_route_function b a else a) := rfl
    rw [hstep, ih, loopLogOf_cons]
    by_cases hb : includedInLoop b <;> simp [hb, compute_log]

theorem loop_totalOps (l : List PyClassInfo) : ∀ a : APIController,
    totalOps (mro_convert_loop l a) = totalOps a + (loopLogOf l).length := by
  induction l with
  | nil => intro a; simp [mro_convert_loop, loopLogOf, flattenL]
  | cons b rest ih =>
    intro a
    have hstep : mro_convert_loop (b :: rest) a
        = mro_convert_loop rest (if includedInLoop b then compute_api_route_function b a else a) := rfl
    rw [hstep, ih, loopLogOf_cons]
    by_cases hb : includedInLoop b
    · simp [hb, compute_totalOps, convEntries]
      omega
    · simp [hb]

theorem loop_tags (l : List PyClassInfo) : ∀ a : APIController,
    (mro_convert_loop l a).tags = a.tags := by
  induction l with
  | nil => intro a; simp [mro_convert_loop]
  | cons b rest ih =>
    intro a
    have hstep : mro_convert_loop (b :: rest) a
        = mro_convert_loop rest (if includedInLoop b then compute_api_route_function b a else a) := rfl
    rw [hstep, ih]
    by_cases hb : includedInLoop b <;> simp [hb, compute_tags]

theorem call_conversionLog (a : APIController) (cls : PyClassObj) (fid : Nat)
    (mroInfo : List PyClassInfo) :
    ((APIController.call a cls fid mroInfo).1).conversionLog
      = a.conversionLog ++ loopLogOf mroInfo := by
  simp only [APIController.call]
  rw [loop_log]
  congr 1
  split <;> rfl

theorem call_totalOps (a : APIController) (cls : PyClassObj) (fid : Nat)
    (mroInfo : List PyClassInfo) :
    totalOps ((APIController.call a cls fid mroInfo).1)
      = totalOps a + (loopLogOf mroInfo).length := by
  have hupd : ∀ (x : APIController) (cc : Option Nat) (ra : List Nat),
      totalOps { x with controller_class := cc, registryAdds := ra } = totalOps x :=
    fun _ _ _ => rfl
  simp only [APIController.call]
  rw [hupd, loop_totalOps]
  congr 1
  split <;> rfl

theorem call_tags (a : APIController) (cls : PyClassObj) (fid : Nat)
    (mroInfo : List PyClassInfo) :
    ((APIController.call a cls fid mroInfo).1).tags
      = (if a.tags.truthy then a.tags
         else TagsValue.vList [pyReplace (strToLower cls.name) "controller" ""]) := by
  simp only [APIController.call]
  rw [loop_tags]
  by_cases h : a.tags.truthy
  · simp [h]
  · simp [h]
    split <;> rfl

theorem countConvFor_append (i : Nat) (l1 l2 : List (Nat × String)) :
    countConvFor i (l1 ++ l2) = countConvFor i l1 + countConvFor i l2 := by
  induction l1 with
  | nil => simp [countConvFor]
  | cons e rest ih => simp [countConvFor, ih]; omega

theorem countConvFor_constFst (i j : Nat) (rfs : List RouteFunction) :
    countConvFor i (rfs.map (fun rf => (j, rf.name)))
      = if j = i then rfs.length else 0 := by
  induction rfs with
  | nil => simp [countConvFor]
  | cons rf rest ih =>
    simp [countConvFor, ih]
    by_cases h : j = i
    · simp [h]
      omega
    · simp [h]

theorem countConvFor_convEntries (i : Nat) (b : PyClassInfo) :
    countConvFor i (convEntries b) = if b.id = i then b.ownRouteFns.length else 0 :=
  countConvFor_constFst i b.id b.ownRouteFns

theorem loopLogOf_not_mem (i : Nat) (l : List PyClassInfo)
    (h : i ∉ l.map PyClassInfo.id) :
    countConvFor i (loopLogOf l) = 0 := by
  induction l with
  | nil => rfl
  | cons b rest ih =>
    rw [List.map_cons] at h
    have hb : b.id ≠ i := fun hh => h (List.mem_cons.mpr (Or.inl hh.symm))
    have hrest : i ∉ rest.map PyClassInfo.id := fun hh => h (List.mem_cons.mpr (Or.inr hh))
    rw [loopLogOf_cons, countConvFor_append, ih hrest]
    have h0 : countConvFor i (if includedInLoop b then convEntries b else []) = 0 := by
      split
      · rw [countConvFor_convEntries]
        simp [hb]
      · rfl
    rw [h0]

theorem loopLogOf_count (A : PyClassInfo) (l : List PyClassInfo)
    (hA : A ∈ l) (hinc : includedInLoop A = true)
    (hnd : (l.map PyClassInfo.id).Nodup) :
    countConvFor A.id (loopLogOf l) = A.ownRouteFns.length := by
  induction l with
  | nil => exact absurd hA (List.not_mem_nil A)
  | cons b rest ih =>
    rw [List.map_cons, List.nodup_cons] at hnd
    obtain ⟨hb, hnd'⟩ := hnd
    rcases List.mem_cons.mp hA with rfl | hA'
    · rw [loopLogOf_cons, countConvFor_append, hinc]
      simp only [if_true]
      rw [countConvFor_convEntries, loopLogOf_not_mem A.id rest hb]
      simp
    · have hbid : b.id ≠ A.id := by
        intro hh
        exact hb (hh ▸ List.mem_map_of_mem PyClassInfo.id hA')
      rw [loopLogOf_cons, countConvFor_append, ih hA' hnd']
      have h0 : countConvFor A.id (if includedInLoop b then convEntries b else []) = 0 := by
        split
        · rw [countConvFor_convEntries]
          simp [hbid]
        · rfl
      rw [h0]
      omega

/--
Claim C1: for every controller class finalized by the `APIController`
decorator, each `RouteFunction` declared on any ancestor in the class's
method-resolution order is converted into exactly one framework operation
per controller, even when that ancestor is reachable through multiple
inheritance paths (diamond inheritance): the ancestor appears exactly once
in the runtime-computed MRO (the `Nodup` hypothesis is the Python
guarantee), so its route functions are converted once each, and every
conversion registers exactly one operation.
-/
theorem C1_route_converted_once (a : APIController) (cls : PyClassObj) (fid : Nat)
    (mroInfo : List PyClassInfo) (A : PyClassInfo)
    (hA : A ∈ mroInfo) (hinc : includedInLoop A = true)
    (hnd : (mroInfo.map PyClassInfo.id).Nodup) :
    countConvFor A.id ((APIController.call a cls fid mroInfo).1.conversionLog)
      = countConvFor A.id a.conversionLog + A.ownRouteFns.length
  ∧ totalOps ((APIController.call a cls fid mroInfo).1)
      = totalOps a + (loopLogOf mroInfo).length := by
  constructor
  · rw [call_conversionLog, countConvFor_append, loopLogOf_count A mroInfo hA hinc hnd]
  · exact call_totalOps a cls fid mroInfo

/--
Witness for C1 on a concrete diamond: `S(B1, B2)` with `B1(A)`, `B2(A)`
and `A` declaring one route; `A` is reachable through both `B1` and `B2`
but occurs once in the MRO, and its single route function is converted
exactly once (operation total grows by exactly the number of conversions).
-/
theorem C1_route_converted_once_witness :
    (clsInfoA ∈ diamondMro ∧ includedInLoop clsInfoA = true
      ∧ (diamondMro.map PyClassInfo.id).Nodup)
  ∧ (countConvFor clsInfoA.id
        ((APIController.call ctrlItems diamondClsObj 14 diamondMro).1.conversionLog)
      = countConvFor clsInfoA.id ctrlItems.conversionLog + clsInfoA.ownRouteFns.length
     ∧ totalOps ((APIController.call ctrlItems diamondClsObj 14 diamondMro).1)
      = totalOps ctrlItems + (loopLogOf diamondMro).length) :=
  ⟨⟨by decide, by decide, by decide⟩,
   C1_route_converted_once ctrlItems diamondClsObj 14 diamondMro clsInfoA
     (by decide) (by decide) (by decide)⟩

/--
Claim C4, counterexample to the claim as stated: the code derives the
default tag with `str.replace`, which removes every occurrence of the
substring "controller", not only a suffix.  For a class named
`MyControllerApi` the code assigns tags `["myapi"]`, whereas the
suffix-stripping reading of the claim (`specDefaultTag`) yields
`"mycontrollerapi"` (no suffix to strip).
-/
theorem C4_default_tag_counterexample :
    ((APIController.call ctrlItems midNameClsObj 23 []).1).tags
        = TagsValue.vList ["myapi"]
  ∧ specDefaultTag "MyControllerApi" = "mycontrollerapi"
  ∧ ¬ ((APIController.call ctrlItems midNameClsObj 23 []).1).tags
        = TagsValue.vList [specDefaultTag "MyControllerApi"] := by
  refine ⟨?_, by decide, ?_⟩
  · rw [call_tags]
    decide
  · rw [call_tags]
    decide

/--
Claim C4 (amended): for every controller class decorated while the
descriptor's tags are falsy (not supplied), the assigned default tag list
is a one-element list containing the class name lowercased with every
occurrence of the literal substring "controller" removed (not only a
suffix occurrence); in particular `WidgetController` receives
`["widget"]`, and `MyControllerApi` receives `["myapi"]`.
-/
theorem C4_default_tag (a : APIController) (cls : PyClassObj) (fid : Nat)
    (mroInfo : List PyClassInfo) (h : a.tags.truthy = false) :
    ((APIController.call a cls fid mroInfo).1).tags
      = TagsValue.vList [pyReplace (strToLower cls.name) "controller" ""]
  ∧ pyReplace (strToLower "WidgetController") "controller" "" = "widget"
  ∧ pyReplace (strToLower "MyControllerApi") "controller" "" = "myapi" := by
  refine ⟨?_, by decide, by decide⟩
  rw [call_tags, h]
  simp

/-- Witness for the amended C4 at the spec's own example class
`WidgetController`. -/
theorem C4_default_tag_witness :
    ctrlItems.tags.truthy = false
  ∧ (((APIController.call ctrlItems widgetClsObj 25 []).1).tags
        = TagsValue.vList [pyReplace (strToLower widgetClsObj.name) "controller" ""]
     ∧ pyReplace (strToLower "WidgetController") "controller" "" = "widget"
     ∧ pyReplace (strToLower "MyControllerApi") "controller" "" = "myapi") :=
  ⟨by decide, C4_default_tag ctrlItems widgetClsObj 25 [] (by decide)⟩

/--
Claim C2, counterexample to the claim as stated: `set_api_instance`
contains no rejection.  On a controller already bound to application
instance 100, a second call binding to instance 200 silently re-binds the
controller class's `api` attribute and every `PathView` to 200 and leaves
the never-consulted `registered` flag `False` - the result differs from the
first binding, so the call was not rejected.
-/
theorem C2_rebinding_counterexample :
    (set_api_instance (set_api_instance ctrlBound 100) 200).controllerClassApi = some 200
  ∧ (set_api_instance ctrlBound 100).controllerClassApi = some 100
  ∧ (set_api_instance (set_api_instance ctrlBound 100) 200).path_operations.map
      (fun e => e.2.boundApi) = [some 200]
  ∧ (set_api_instance (set_api_instance ctrlBound 100) 200).registered = false
  ∧ ¬ (set_api_instance (set_api_instance ctrlBound 100) 200).controllerClassApi
        = (set_api_instance ctrlBound 100).controllerClassApi := by
  refine ⟨by decide, by decide, by decide, by decide, by decide⟩

/--
Claim C2 (amended): `set_api_instance` performs no rejection.  A second
call on an already-bound controller silently re-binds the controller
class's `api` attribute and every stored `PathView` to the new application
instance, and the `registered` flag (initialized `False` by the
constructor) is neither consulted nor updated by `set_api_instance`; any
double-registration guard must live in the caller.
-/
theorem C2_set_api_instance_rebinds (a : APIController) (api1 api2 : Nat) :
    (set_api_instance (set_api_instance a api1) api2).controllerClassApi = some api2
  ∧ (set_api_instance (set_api_instance a api1) api2).registered = a.registered
  ∧ (set_api_instance (set_api_instance a api1) api2).path_operations.map
      (fun e => e.2.boundApi)
      = a.path_operations.map (fun _ => some api2) := by
  refine ⟨rfl, rfl, ?_⟩
  simp only [set_api_instance, PathView.set_api_instance, List.map_map]
  rfl

/--
Claim C3: on a request-level check with permission classes `P1 :: P2 :: rest`
in declaration order, context and request present, and `P1.has_permission`
false, `check_permissions` raises `PermissionDenied` carrying `P1`'s
optional `message` attribute, and the invocation trace contains only
`P1`'s check: `P2.has_permission` (and every later check) is never
invoked.
-/
theorem C3_permission_short_circuit (req : Nat) (P1 P2 : PermissionClass)
    (rest : List PermissionClass) (h : P1.has_permission = false) :
    check_permissions (some { request := some req, permission_classes := P1 :: P2 :: rest })
      = ([CheckEvent.reqCheck P1.name], some P1.message) := by
  simp [check_permissions, get_permissions, check_permissions_go, h]

/-- Witness for C3: `permDeny` denies, `permAllow` is never consulted. -/
theorem C3_permission_short_circuit_witness :
    permDeny.has_permission = false
  ∧ check_permissions
        (some { request := some 0, permission_classes := permDeny :: permAllow :: [] })
      = ([CheckEvent.reqCheck permDeny.name], some permDeny.message) :=
  ⟨rfl, C3_permission_short_circuit 0 permDeny permAllow [] rfl⟩

/--
Claim C5, counterexample to the claim as stated: `add_api_operation`
computes `auth or self.auth` under Python truthiness.  The `NOT_SET`
sentinel is truthy, so an omitted route-level auth is forwarded as the
sentinel instead of being replaced by the controller's default
(`specAuthChoice`, the claim's reading); moreover an explicitly falsy
route-level auth (`None`) is replaced by the controller default rather
than being passed through.
-/
theorem C5_auth_counterexample :
    ((add_api_operation ctrlWithAuth "/x" ["GET"] PyVal.notSet none none).2).auth
        = PyVal.notSet
  ∧ specAuthChoice PyVal.notSet ctrlWithAuth.auth = PyVal.authVal "ctrlAuth"
  ∧ ¬ ((add_api_operation ctrlWithAuth "/x" ["GET"] PyVal.notSet none none).2).auth
        = specAuthChoice PyVal.notSet ctrlWithAuth.auth
  ∧ ((add_api_operation ctrlWithAuth "/x" ["GET"] PyVal.pynone none none).2).auth
        = PyVal.authVal "ctrlAuth"
  ∧ specAuthChoice PyVal.pynone ctrlWithAuth.auth = PyVal.pynone := by
  refine ⟨by decide, by decide, by decide, by decide, by decide⟩

/--
Claim C5 (amended): the auth passed to the PathView's operation
registration is `auth or self.auth` under Python truthiness: the
route-level value whenever it is truthy - including the `NOT_SET`
sentinel, which is truthy and is forwarded unresolved - and the
controller's own default exactly when the route-level value is falsy
(explicitly set to `None` or an empty list).  The sentinel is not replaced
by the controller default at registration time.
-/
theorem C5_auth_defaulting (a : APIController) (p : String) (m : List String)
    (oid un : Option String) :
    (∀ au : PyVal, ((add_api_operation a p m au oid un).2).auth
        = (if au.truthy then au else a.auth))
  ∧ ((add_api_operation a p m PyVal.notSet oid un).2).auth = PyVal.notSet
  ∧ ((add_api_operation a p m PyVal.pynone oid un).2).auth = a.auth
  ∧ ((add_api_operation a p m PyVal.emptyList oid un).2).auth = a.auth := by
  have key : ∀ au : PyVal, ((add_api_operation a p m au oid un).2).auth
      = (if au.truthy then au else a.auth) := by
    intro au
    unfold add_api_operation
    rcases h : lookupPath a.path_operations p with _ | pv <;>
      simp [h, PathView.add_operation, pyOr]
  exact ⟨key, key PyVal.notSet, key PyVal.pynone, key PyVal.emptyList⟩

/--
Claim C6: `get_object_or_none` returns `None` without raising and without
invoking any object-level permission check when the underlying lookup
finds nothing; when it finds an object, the object-level permission chain
runs on that object (its invocation trace is exactly the chain's trace)
before the object is returned - a denying chain raises with the failing
permission's message, a granting chain returns the object.
-/
theorem C6_get_object_or_none_checks :
    (∀ context, get_object_or_none none context = ([], Except.ok none))
  ∧ (∀ context o, (get_object_or_none (some o) context).1
        = (check_object_permissions context o).1)
  ∧ (∀ req P rest o, P.has_object_permission o = false →
      get_object_or_none (some o)
          (some { request := some req, permission_classes := P :: rest })
        = ([CheckEvent.objCheck P.name o], Except.error P.message))
  ∧ (∀ req P o, P.has_object_permission o = true →
      get_object_or_none (some o)
          (some { request := some req, permission_classes := [P] })
        = ([CheckEvent.objCheck P.name o], Except.ok (some o))) := by
  refine ⟨fun _ => rfl, ?_, ?_, ?_⟩
  · intro context o
    simp only [get_object_or_none]
    split <;> rfl
  · intro req P rest o h
    simp [get_object_or_none, check_object_permissions, get_permissions,
      check_object_permissions_go, h]
  · intro req P o h
    simp [get_object_or_none, check_object_permissions, get_permissions,
      check_object_permissions_go, h]

/-- Witness for C6: missing lookup yields `None` with an empty trace; a
found object runs the chain (denying and granting cases). -/
theorem C6_get_object_or_none_checks_witness :
    (permDeny.has_object_permission 5 = false ∧ permAllow.has_object_permission 5 = true)
  ∧ get_object_or_none none (some { request := some 0, permission_classes := [permDeny] })
      = ([], Except.ok none)
  ∧ get_object_or_none (some 5)
        (some { request := some 0, permission_classes := permDeny :: [] })
      = ([CheckEvent.objCheck permDeny.name 5], Except.error permDeny.message)
  ∧ get_object_or_none (some 5)
        (some { request := some 0, permission_classes := [permAllow] })
      = ([CheckEvent.objCheck permAllow.name 5], Except.ok (some 5)) :=
  ⟨⟨rfl, rfl⟩,
   C6_get_object_or_none_checks.1 (some { request := some 0, permission_classes := [permDeny] }),
   C6_get_object_or_none_checks.2.2.1 0 permDeny [] 5 rfl,
   C6_get_object_or_none_checks.2.2.2 0 permAllow 5 rfl⟩

theorem check_permissions_go_no_request (c : RouteContext) (h : c.request = none) :
    ∀ pcs : List PermissionClass, check_permissions_go (some c) pcs = ([], none) := by
  intro pcs
  induction pcs with
  | nil => rfl
  | cons p rest ih => simp [check_permissions_go, h, ih]

theorem check_object_permissions_go_no_request (c : RouteContext) (obj : Nat)
    (h : c.request = none) :
    ∀ pcs : List PermissionClass, check_object_permissions_go (some c) obj pcs = ([], none) := by
  intro pcs
  induction pcs with
  | nil => rfl
  | cons p rest ih => simp [check_object_permissions_go, h, ih]

/--
Claim C7: whenever the controller's `RouteContext` is absent, or present
but carrying no request object, both `check_permissions` and
`check_object_permissions` return without raising and with an empty
invocation trace: no permission instance's `has_permission` or
`has_object_permission` method is invoked.
-/
theorem C7_checks_skipped (context : Option RouteContext) (obj : Nat)
    (h : context = none ∨ ∃ c, context = some c ∧ c.request = none) :
    check_permissions context = ([], none)
  ∧ check_object_permissions context obj = ([], none) := by
  rcases h with h | ⟨c, rfl, hr⟩
  · subst h
    exact ⟨rfl, rfl⟩
  · exact ⟨check_permissions_go_no_request c hr _,
      check_object_permissions_go_no_request c obj hr _⟩

/-- Witness for C7 at a context whose permission list is non-empty but
whose request is `None`. -/
theorem C7_checks_skipped_witness :
    ((some noReqCtx : Option RouteContext) = none
      ∨ ∃ c, (some noReqCtx : Option RouteContext) = some c ∧ c.request = none)
  ∧ (check_permissions (some noReqCtx) = ([], none)
     ∧ check_object_permissions (some noReqCtx) 7 = ([], none)) :=
  ⟨Or.inr ⟨noReqCtx, rfl, rfl⟩,
   C7_checks_skipped (some noReqCtx) 7 (Or.inr ⟨noReqCtx, rfl, rfl⟩)⟩

theorem collapse_head (a : Char) (l : List Char) :
    (collapseSlashes (a :: l)).head? = some a := by
  induction l generalizing a with
  | nil => rfl
  | cons b r ih =>
    simp only [collapseSlashes]
    split
    · rename_i h
      rw [ih b]
      have h2 := (Bool.and_eq_true _ _).mp h
      rw [eq_of_beq h2.1, eq_of_beq h2.2]
    · rfl

theorem collapse_noDouble (l : List Char) :
    hasDoubleSlash (collapseSlashes l) = false := by
  induction l with
  | nil => rfl
  | cons a rest ih =>
    cases rest with
    | nil => rfl
    | cons b r =>
      simp only [collapseSlashes]
      split
      · exact ih
      · rename_i h
        have hd := collapse_head b r
        rcases hc : collapseSlashes (b :: r) with _ | ⟨c, t⟩
        · rfl
        · rw [hc] at hd ih
          simp only [List.head?] at hd
          injection hd with hd
          simp only [hasDoubleSlash, ih, Bool.or_false]
          subst hd
          cases hcc : (a == '/' && c == '/') with
          | false => rfl
          | true => exact absurd hcc h

theorem lstrip_head (l : List Char) : (lstripSlash l).head? ≠ some '/' := by
  induction l with
  | nil => simp [lstripSlash]
  | cons a rest ih =>
    simp only [lstripSlash]
    split
    · exact ih
    · rename_i h
      simp only [List.head?]
      intro hcon
      injection hcon with hcon
      exact h (by simp [hcon])

theorem hasDoubleSlash_tail (a : Char) (l : List Char)
    (h : hasDoubleSlash (a :: l) = false) : hasDoubleSlash l = false := by
  cases l with
  | nil => rfl
  | cons b r =>
    simp only [hasDoubleSlash, Bool.or_eq_false_iff] at h
    exact h.2

theorem lstrip_noDouble (l : List Char) (h : hasDoubleSlash l = false) :
    hasDoubleSlash (lstripSlash l) = false := by
  induction l with
  | nil => exact h
  | cons a rest ih =>
    simp only [lstripSlash]
    split
    · exact ih (hasDoubleSlash_tail a rest h)
    · exact h

/--
Claim C8: for every registered path, `urls_paths` translates curly-brace
parameters to angle brackets, joins the path with the given prefix,
collapses duplicate path separators and strips the leading separator: the
declared path for items mounted under prefix "shop" yields the routable
path with angle-bracket parameter and single separators, and in general
every computed route contains no doubled separator and does not start with
a separator.
-/
theorem C8_urls_paths_translation :
    urls_paths ctrlShopExample "shop" = [("shop/items/<item_id>", some "item_op")]
  ∧ ∀ pfx p : String,
      hasDoubleSlash (routePath pfx p).data = false
      ∧ (routePath pfx p).data.head? ≠ some '/' := by
  refine ⟨by decide, fun pfx p => ⟨?_, ?_⟩⟩
  · show hasDoubleSlash (lstripSlash (collapseSlashes _)) = false
    exact lstrip_noDouble _ (collapse_noDouble _)
  · show (lstripSlash _).head? ≠ some '/'
    exact lstrip_head _

/--
Claim C9: decorator round-trip.  For every class passed to an
`APIController` acting as a decorator, the returned class `R` satisfies
`R.get_api_controller()` is the decorating instance and the instance's
`controller_class` is `R`; `R` is a subclass of both `ControllerBase` and
the original class; and the class is recombined under a `ControllerBase`
base (fresh identity) exactly when it was not already a `ControllerBase`
subclass (Python guarantees every class lists itself in its own MRO: the
`hself` hypothesis).
-/
theorem C9_decorator_round_trip (a : APIController) (cls : PyClassObj) (fid : Nat)
    (mroInfo : List PyClassInfo) (hself : cls.id ∈ cls.mroIds) :
    get_api_controller (APIController.call a cls fid mroInfo).2 = Except.ok a.selfId
  ∧ (APIController.call a cls fid mroInfo).1.controller_class
      = some (APIController.call a cls fid mroInfo).2.id
  ∧ controllerBaseId ∈ (APIController.call a cls fid mroInfo).2.mroIds
  ∧ cls.id ∈ (APIController.call a cls fid mroInfo).2.mroIds
  ∧ (controllerBaseId ∈ cls.mroIds →
       (APIController.call a cls fid mroInfo).2 = { cls with apiCtrl := some a.selfId })
  ∧ (controllerBaseId ∉ cls.mroIds →
       (APIController.call a cls fid mroInfo).2.id = fid) := by
  by_cases hm : controllerBaseId ∈ cls.mroIds
  · refine ⟨?_, ?_, ?_, ?_, fun _ => ?_, fun hn => absurd hm hn⟩
    · simp [APIController.call, hm, get_api_controller]
    · simp [APIController.call, hm]
    · simp [APIController.call, hm]
    · simp only [APIController.call, hm, if_true]
      exact hself
    · simp [APIController.call, hm]
  · refine ⟨?_, ?_, ?_, ?_, fun hmem => absurd hmem hm, fun _ => ?_⟩
    · simp [APIController.call, hm, get_api_controller]
    · simp [APIController.call, hm]
    · simp [APIController.call, hm, List.mem_dedup]
    · simp [APIController.call, hm, List.mem_dedup]
      exact Or.inr (Or.inr (Or.inr (Or.inr hself)))
    · simp [APIController.call, hm]

/-- Witness for C9 on a plain user class (not yet controller-capable),
which gets recombined. -/
theorem C9_decorator_round_trip_witness :
    plainUserCls.id ∈ plainUserCls.mroIds
  ∧ (get_api_controller (APIController.call ctrlItems plainUserCls 21 []).2
        = Except.ok ctrlItems.selfId
     ∧ (APIController.call ctrlItems plainUserCls 21 []).1.controller_class
        = some (APIController.call ctrlItems plainUserCls 21 []).2.id
     ∧ controllerBaseId ∈ (APIController.call ctrlItems plainUserCls 21 []).2.mroIds
     ∧ plainUserCls.id ∈ (APIController.call ctrlItems plainUserCls 21 []).2.mroIds
     ∧ (controllerBaseId ∈ plainUserCls.mroIds →
          (APIController.call ctrlItems plainUserCls 21 []).2
            = { plainUserCls with apiCtrl := some ctrlItems.selfId })
     ∧ (controllerBaseId ∉ plainUserCls.mroIds →
          (APIController.call ctrlItems plainUserCls 21 []).2.id = 21)) :=
  ⟨by decide, C9_decorator_round_trip ctrlItems plainUserCls 21 [] (by decide)⟩

theorem lookupPath_append_ne (l : List (String × PathView)) (p q : String) (pv : PathView)
    (hq : q ≠ p) : lookupPath (l ++ [(p, pv)]) q = lookupPath l q := by
  induction l with
  | nil =>
    have hpq : ¬ p = q := fun hh => hq hh.symm
    simp [lookupPath, beq_iff_eq, hpq]
  | cons e rest ih =>
    obtain ⟨k, v⟩ := e
    by_cases hk : k = q <;> simp [lookupPath, beq_iff_eq, hk, ih]

theorem lookupPath_append_self (l : List (String × PathView)) (p : String) (pv : PathView)
    (h : lookupPath l p = none) : lookupPath (l ++ [(p, pv)]) p = some pv := by
  induction l with
  | nil => simp [lookupPath]
  | cons e rest ih =>
    obtain ⟨k, v⟩ := e
    by_cases hk : k = p
    · simp [lookupPath, beq_iff_eq, hk] at h
    · simp [lookupPath, beq_iff_eq, hk] at h ⊢
      exact ih h

theorem lookupPath_update_ne (l : List (String × PathView)) (p q : String) (pv : PathView)
    (hq : q ≠ p) : lookupPath (updatePath l p pv) q = lookupPath l q := by
  induction l with
  | nil => rfl
  | cons e rest ih =>
    obtain ⟨k, v⟩ := e
    by_cases hk : k = p
    · have hpq : ¬ p = q := fun hh => hq hh.symm
      simp [updatePath, lookupPath, beq_iff_eq, hk, hpq]
    · by_cases hkq : k = q <;> simp [updatePath, lookupPath, beq_iff_eq, hk, hkq, hq, ih]

theorem lookupPath_update_self (l : List (String × PathView)) (p : String) (pv pv' : PathView)
    (h : lookupPath l p = some pv) : lookupPath (updatePath l p pv') p = some pv' := by
  induction l with
  | nil => simp [lookupPath] at h
  | cons e rest ih =>
    obtain ⟨k, v⟩ := e
    by_cases hk : k = p
    · simp [updatePath, lookupPath, beq_iff_eq, hk]
    · simp [updatePath, lookupPath, beq_iff_eq, hk] at h ⊢
      exact ih h

theorem updatePath_keys (l : List (String × PathView)) (p : String) (pv : PathView) :
    (updatePath l p pv).map Prod.fst = l.map Prod.fst := by
  induction l with
  | nil => rfl
  | cons e rest ih =>
    obtain ⟨k, v⟩ := e
    by_cases hk : k = p <;> simp [updatePath, beq_iff_eq, hk, ih]

/--
Claim C10: frame property of `add_api_operation`.  A call with path `p`
leaves the `PathView` bound to every other key unchanged; when `p` is not
yet a key, the key list grows by exactly `[p]` at the end, and when `p` is
present the key list is unchanged; in either case `p` is a key afterwards
(the key set only ever grows).
-/
theorem C10_add_api_operation_frame (a : APIController) (p : String) (m : List String)
    (au : PyVal) (oid un : Option String) (q : String) (hq : q ≠ p) :
    lookupPath ((add_api_operation a p m au oid un).1).path_operations q
        = lookupPath a.path_operations q
  ∧ (lookupPath a.path_operations p = none →
        ((add_api_operation a p m au oid un).1).path_operations.map Prod.fst
          = a.path_operations.map Prod.fst ++ [p])
  ∧ ((lookupPath a.path_operations p).isSome = true →
        ((add_api_operation a p m au oid un).1).path_operations.map Prod.fst
          = a.path_operations.map Prod.fst)
  ∧ (lookupPath ((add_api_operation a p m au oid un).1).path_operations p).isSome = true := by
  unfold add_api_operation
  rcases h : lookupPath a.path_operations p with _ | pv
  · simp only [h]
    refine ⟨lookupPath_append_ne _ _ _ _ hq, fun _ => by simp, fun hs => by simp at hs, ?_⟩
    have hkey : ∀ X : PathView,
        (lookupPath (a.path_operations ++ [(p, X)]) p).isSome = true := by
      intro X
      rw [lookupPath_append_self _ _ _ h]
      rfl
    exact hkey _
  · simp only [h]
    refine ⟨lookupPath_update_ne _ _ _ _ hq, fun hn => by simp at hn,
      fun _ => updatePath_keys _ _ _, ?_⟩
    have hkey : ∀ X : PathView,
        (lookupPath (updatePath a.path_operations p X) p).isSome = true := by
      intro X
      rw [lookupPath_update_self _ _ pv _ h]
      rfl
    exact hkey _

/-- Witness for C10: adding a fresh path `"/x"` to a controller already
holding `"/other"` leaves `"/other"` untouched and appends the key `"/x"`. -/
theorem C10_add_api_operation_frame_witness :
    ("/other" ≠ "/x" ∧ lookupPath ctrlFrameExample.path_operations "/x" = none)
  ∧ (lookupPath ((add_api_operation ctrlFrameExample "/x" ["GET"]
        PyVal.notSet none none).1).path_operations "/other"
        = lookupPath ctrlFrameExample.path_operations "/other"
     ∧ ((add_api_operation ctrlFrameExample "/x" ["GET"]
          PyVal.notSet none none).1).path_operations.map Prod.fst
        = ctrlFrameExample.path_operations.map Prod.fst ++ ["/x"]
     ∧ (lookupPath ((add_api_operation ctrlFrameExample "/x" ["GET"]
          PyVal.notSet none none).1).path_operations "/x").isSome = true) := by
  have h := C10_add_api_operation_frame ctrlFrameExample "/x" ["GET"]
    PyVal.notSet none none "/other" (by decide)
  exact ⟨⟨by decide, by decide⟩, h.1, h.2.1 (by decide), h.2.2.2⟩

end NinjaExtra
